import Mathlib

/-!
Shallow embedding of the `things-kit-http` Go package (`src/module.go` plus the
repository README). The package is interface-only: it declares the `Server`,
`Context`, `Router` and `Handler` contracts, a `Config` struct, and a constant
table of IANA-registered HTTP status codes. Interface method sets are embedded
as explicit signature tables; the behavioural contracts the package documents
for its (externally implemented) interfaces are modelled from the spec as
explicit state-passing functions.
-/

namespace ThingsKitHttp

/-! HTTP status codes as declared in the const block of `src/module.go`
(lines 120-187). Each Go constant becomes a Lean definition of the same
name with the same integer value. -/

def StatusContinue : Nat := 100
def StatusSwitchingProtocols : Nat := 101
def StatusProcessing : Nat := 102
def StatusEarlyHints : Nat := 103

def StatusOK : Nat := 200
def StatusCreated : Nat := 201
def StatusAccepted : Nat := 202
def StatusNonAuthoritativeInfo : Nat := 203
def StatusNoContent : Nat := 204
def StatusResetContent : Nat := 205
def StatusPartialContent : Nat := 206
def StatusMultiStatus : Nat := 207
def StatusAlreadyReported : Nat := 208
def StatusIMUsed : Nat := 226

def StatusMultipleChoices : Nat := 300
def StatusMovedPermanently : Nat := 301
def StatusFound : Nat := 302
def StatusSeeOther : Nat := 303
def StatusNotModified : Nat := 304
def StatusUseProxy : Nat := 305
def StatusTemporaryRedirect : Nat := 307
def StatusPermanentRedirect : Nat := 308

def StatusBadRequest : Nat := 400
def StatusUnauthorized : Nat := 401
def StatusPaymentRequired : Nat := 402
def StatusForbidden : Nat := 403
def StatusNotFound : Nat := 404
def StatusMethodNotAllowed : Nat := 405
def StatusNotAcceptable : Nat := 406
def StatusProxyAuthRequired : Nat := 407
def StatusRequestTimeout : Nat := 408
def StatusConflict : Nat := 409
def StatusGone : Nat := 410
def StatusLengthRequired : Nat := 411
def StatusPreconditionFailed : Nat := 412
def StatusRequestEntityTooLarge : Nat := 413
def StatusRequestURITooLong : Nat := 414
def StatusUnsupportedMediaType : Nat := 415
def StatusRequestedRangeNotSatisfiable : Nat := 416
def StatusExpectationFailed : Nat := 417
def StatusTeapot : Nat := 418
def StatusMisdirectedRequest : Nat := 421
def StatusUnprocessableEntity : Nat := 422
def StatusLocked : Nat := 423
def StatusFailedDependency : Nat := 424
def StatusTooEarly : Nat := 425
def StatusUpgradeRequired : Nat := 426
def StatusPreconditionRequired : Nat := 428
def StatusTooManyRequests : Nat := 429
def StatusRequestHeaderFieldsTooLarge : Nat := 431
def StatusUnavailableForLegalReasons : Nat := 451

def StatusInternalServerError : Nat := 500
def StatusNotImplemented : Nat := 501
def StatusBadGateway : Nat := 502
def StatusServiceUnavailable : Nat := 503
def StatusGatewayTimeout : Nat := 504
def StatusHTTPVersionNotSupported : Nat := 505
def StatusVariantAlsoNegotiates : Nat := 506
def StatusInsufficientStorage : Nat := 507
def StatusLoopDetected : Nat := 508
def StatusNotExtended : Nat := 510
def StatusNetworkAuthenticationRequired : Nat := 511

/-- The full status-code const block of `src/module.go` (lines 120-187) as an
association list from the Go constant name to its declared value, in source
order. -/
def statusTable : List (String × Nat) :=
  [("StatusContinue", StatusContinue),
   ("StatusSwitchingProtocols", StatusSwitchingProtocols),
   ("StatusProcessing", StatusProcessing),
   ("StatusEarlyHints", StatusEarlyHints),
   ("StatusOK", StatusOK),
   ("StatusCreated", StatusCreated),
   ("StatusAccepted", StatusAccepted),
   ("StatusNonAuthoritativeInfo", StatusNonAuthoritativeInfo),
   ("StatusNoContent", StatusNoContent),
   ("StatusResetContent", StatusResetContent),
   ("StatusPartialContent", StatusPartialContent),
   ("StatusMultiStatus", StatusMultiStatus),
   ("StatusAlreadyReported", StatusAlreadyReported),
   ("StatusIMUsed", StatusIMUsed),
   ("StatusMultipleChoices", StatusMultipleChoices),
   ("StatusMovedPermanently", StatusMovedPermanently),
   ("StatusFound", StatusFound),
   ("StatusSeeOther", StatusSeeOther),
   ("StatusNotModified", StatusNotModified),
   ("StatusUseProxy", StatusUseProxy),
   ("StatusTemporaryRedirect", StatusTemporaryRedirect),
   ("StatusPermanentRedirect", StatusPermanentRedirect),
   ("StatusBadRequest", StatusBadRequest),
   ("StatusUnauthorized", StatusUnauthorized),
   ("StatusPaymentRequired", StatusPaymentRequired),
   ("StatusForbidden", StatusForbidden),
   ("StatusNotFound", StatusNotFound),
   ("StatusMethodNotAllowed", StatusMethodNotAllowed),
   ("StatusNotAcceptable", StatusNotAcceptable),
   ("StatusProxyAuthRequired", StatusProxyAuthRequired),
   ("StatusRequestTimeout", StatusRequestTimeout),
   ("StatusConflict", StatusConflict),
   ("StatusGone", StatusGone),
   ("StatusLengthRequired", StatusLengthRequired),
   ("StatusPreconditionFailed", StatusPreconditionFailed),
   ("StatusRequestEntityTooLarge", StatusRequestEntityTooLarge),
   ("StatusRequestURITooLong", StatusRequestURITooLong),
   ("StatusUnsupportedMediaType", StatusUnsupportedMediaType),
   ("StatusRequestedRangeNotSatisfiable", StatusRequestedRangeNotSatisfiable),
   ("StatusExpectationFailed", StatusExpectationFailed),
   ("StatusTeapot", StatusTeapot),
   ("StatusMisdirectedRequest", StatusMisdirectedRequest),
   ("StatusUnprocessableEntity", StatusUnprocessableEntity),
   ("StatusLocked", StatusLocked),
   ("StatusFailedDependency", StatusFailedDependency),
   ("StatusTooEarly", StatusTooEarly),
   ("StatusUpgradeRequired", StatusUpgradeRequired),
   ("StatusPreconditionRequired", StatusPreconditionRequired),
   ("StatusTooManyRequests", StatusTooManyRequests),
   ("StatusRequestHeaderFieldsTooLarge", StatusRequestHeaderFieldsTooLarge),
   ("StatusUnavailableForLegalReasons", StatusUnavailableForLegalReasons),
   ("StatusInternalServerError", StatusInternalServerError),
   ("StatusNotImplemented", StatusNotImplemented),
   ("StatusBadGateway", StatusBadGateway),
   ("StatusServiceUnavailable", StatusServiceUnavailable),
   ("StatusGatewayTimeout", StatusGatewayTimeout),
   ("StatusHTTPVersionNotSupported", StatusHTTPVersionNotSupported),
   ("StatusVariantAlsoNegotiates", StatusVariantAlsoNegotiates),
   ("StatusInsufficientStorage", StatusInsufficientStorage),
   ("StatusLoopDetected", StatusLoopDetected),
   ("StatusNotExtended", StatusNotExtended),
   ("StatusNetworkAuthenticationRequired", StatusNetworkAuthenticationRequired)]

/-- Modelled from the spec: the IANA-assigned integer for each symbolic status
name, transcribed independently of the const block from the IANA HTTP
status-code registry that the package documentation cites
(RFC 9110 and the RFCs named per entry). Names not naming a registered status
map to `none`. -/
def ianaAssignedValue : String → Option Nat
  | "StatusContinue" => some 100
  | "StatusSwitchingProtocols" => some 101
  | "StatusProcessing" => some 102
  | "StatusEarlyHints" => some 103
  | "StatusOK" => some 200
  | "StatusCreated" => some 201
  | "StatusAccepted" => some 202
  | "StatusNonAuthoritativeInfo" => some 203
  | "StatusNoContent" => some 204
  | "StatusResetContent" => some 205
  | "StatusPartialContent" => some 206
  | "StatusMultiStatus" => some 207
  | "StatusAlreadyReported" => some 208
  | "StatusIMUsed" => some 226
  | "StatusMultipleChoices" => some 300
  | "StatusMovedPermanently" => some 301
  | "StatusFound" => some 302
  | "StatusSeeOther" => some 303
  | "StatusNotModified" => some 304
  | "StatusUseProxy" => some 305
  | "StatusTemporaryRedirect" => some 307
  | "StatusPermanentRedirect" => some 308
  | "StatusBadRequest" => some 400
  | "StatusUnauthorized" => some 401
  | "StatusPaymentRequired" => some 402
  | "StatusForbidden" => some 403
  | "StatusNotFound" => some 404
  | "StatusMethodNotAllowed" => some 405
  | "StatusNotAcceptable" => some 406
  | "StatusProxyAuthRequired" => some 407
  | "StatusRequestTimeout" => some 408
  | "StatusConflict" => some 409
  | "StatusGone" => some 410
  | "StatusLengthRequired" => some 411
  | "StatusPreconditionFailed" => some 412
  | "StatusRequestEntityTooLarge" => some 413
  | "StatusRequestURITooLong" => some 414
  | "StatusUnsupportedMediaType" => some 415
  | "StatusRequestedRangeNotSatisfiable" => some 416
  | "StatusExpectationFailed" => some 417
  | "StatusTeapot" => some 418
  | "StatusMisdirectedRequest" => some 421
  | "StatusUnprocessableEntity" => some 422
  | "StatusLocked" => some 423
  | "StatusFailedDependency" => some 424
  | "StatusTooEarly" => some 425
  | "StatusUpgradeRequired" => some 426
  | "StatusPreconditionRequired" => some 428
  | "StatusTooManyRequests" => some 429
  | "StatusRequestHeaderFieldsTooLarge" => some 431
  | "StatusUnavailableForLegalReasons" => some 451
  | "StatusInternalServerError" => some 500
  | "StatusNotImplemented" => some 501
  | "StatusBadGateway" => some 502
  | "StatusServiceUnavailable" => some 503
  | "StatusGatewayTimeout" => some 504
  | "StatusHTTPVersionNotSupported" => some 505
  | "StatusVariantAlsoNegotiates" => some 506
  | "StatusInsufficientStorage" => some 507
  | "StatusLoopDetected" => some 508
  | "StatusNotExtended" => some 510
  | "StatusNetworkAuthenticationRequired" => some 511
  | _ => none

/-- Modelled from the spec: the integer codes carrying a permanent registration
in the IANA HTTP status-code registry (the registry cited at
`src/module.go` line 119). Includes 306 and 418, which the registry lists as
registered but "(Unused)". -/
def ianaRegistryCodes : List Nat :=
  [100, 101, 102, 103,
   200, 201, 202, 203, 204, 205, 206, 207, 208, 226,
   300, 301, 302, 303, 304, 305, 306, 307, 308,
   400, 401, 402, 403, 404, 405, 406, 407, 408, 409, 410, 411, 412, 413,
   414, 415, 416, 417, 418, 421, 422, 423, 424, 425, 426, 428, 429, 431, 451,
   500, 501, 502, 503, 504, 505, 506, 507, 508, 510, 511]

/-- The `Config` struct of `src/module.go` (lines 113-116): a network port and
a bind host. -/
structure Config where
  Port : Int
  Host : String
deriving DecidableEq

/-- The `mapstructure` tags on the fields of `Config`, pairing each Go field
name with its external configuration option name (lines 114-115). -/
def configMapstructureTags : List (String × String) :=
  [("Port", "port"), ("Host", "host")]

/-- Go types occurring in the interface signatures of `src/module.go`,
as an enumeration for the signature tables below. -/
inductive GoType where
  | context
  | error
  | string
  | int
  | handlerFunc
  | router
deriving DecidableEq

/-- One method of a Go interface: name, parameter types, result types. -/
structure MethodSig where
  name : String
  params : List GoType
  results : List GoType
deriving DecidableEq

/-- The method set of the `Server` interface (`src/module.go` lines 18-31), in
declaration order. -/
def serverMethods : List MethodSig :=
  [⟨"Start", [GoType.context], [GoType.error]⟩,
   ⟨"Stop", [GoType.context], [GoType.error]⟩,
   ⟨"Addr", [], [GoType.string]⟩]

/-- The signature of the `HandlerFunc` function type
(`src/module.go` line 79): parameters and results. -/
def handlerFuncSig : List GoType × List GoType :=
  ([GoType.context], [GoType.error])

/-- The method set of the `Router` interface (`src/module.go` lines 83-101),
in declaration order. -/
def routerMethods : List MethodSig :=
  [⟨"GET", [GoType.string, GoType.handlerFunc], []⟩,
   ⟨"POST", [GoType.string, GoType.handlerFunc], []⟩,
   ⟨"PUT", [GoType.string, GoType.handlerFunc], []⟩,
   ⟨"DELETE", [GoType.string, GoType.handlerFunc], []⟩,
   ⟨"PATCH", [GoType.string, GoType.handlerFunc], []⟩,
   ⟨"Group", [GoType.string], [GoType.router]⟩]

/-- Modelled from the spec: the contract-level error kinds of section 7 of the
design (`BindError`, `WriteError`); the repository declares the contracts only,
so the failure values are modelled from the spec taxonomy. -/
inductive CtxError where
  | bindError
  | writeError
deriving DecidableEq

/-- Modelled from the spec: the observable response state of one `Context`.
The repository ships no `Context` implementation, so the response side is
modelled as the data a conforming implementation must track: whether the
response is committed, and the status code, content type and body sent. -/
structure RespState where
  committed : Bool
  status : Nat
  contentType : String
  body : String
deriving DecidableEq

/-- Modelled from the spec: `Context.JSON` (`src/module.go` line 65) as a
conforming implementation must behave — it sends a JSON response with the
given status code, and fails with `WriteError` leaving the response untouched
when the response has already been committed. The payload is taken already
serialized. -/
def JSON (code : Nat) (payload : String) (st : RespState) :
    Except CtxError Unit × RespState :=
  if st.committed then (Except.error CtxError.writeError, st)
  else (Except.ok (), ⟨true, code, "application/json", payload⟩)

/-- Modelled from the spec: `Context.String` (`src/module.go` line 68) as a
conforming implementation must behave — it sends a plain-text response with
the given status code, and fails with `WriteError` leaving the response
untouched when the response has already been committed. -/
def StringResp (code : Nat) (s : String) (st : RespState) :
    Except CtxError Unit × RespState :=
  if st.committed then (Except.error CtxError.writeError, st)
  else (Except.ok (), ⟨true, code, "text/plain", s⟩)

/-- Modelled from the spec: JSON values, the structured shape into which the
structured-bind operation parses a request body. -/
inductive Json where
  | null
  | bool (b : Bool)
  | num (n : Int)
  | str (s : String)
  | arr (elems : List Json)
  | obj (fields : List (String × Json))

/-- Drops leading JSON whitespace from a character stream. -/
def skipWs : List Char → List Char
  | c :: cs =>
    if c == ' ' || c == '\n' || c == '\t' || c == '\r' then skipWs cs
    else c :: cs
  | [] => []

/-- Reads the remainder of a JSON string literal (opening quote already
consumed, escapes not modelled), returning the literal and the rest of the
stream. -/
def takeStr : List Char → Option (String × List Char)
  | [] => none
  | c :: cs =>
    if c == '"' then some ("", cs)
    else
      match takeStr cs with
      | some (s, rest) => some (String.mk (c :: s.data), rest)
      | none => none

/-- Reads a maximal run of decimal digits, returning their values and the rest
of the stream. -/
def takeDigits : List Char → List Nat × List Char
  | c :: cs =>
    if c.isDigit then
      let p := takeDigits cs
      ((c.toNat - 48) :: p.1, p.2)
    else ([], c :: cs)
  | [] => ([], [])

/-- Combines a digit-value list into the natural number it denotes. -/
def digitsToNat (ds : List Nat) : Nat :=
  ds.foldl (fun a d => a * 10 + d) 0

mutual

/-- Modelled from the spec: fuel-indexed recursive-descent parser for JSON
values, giving meaning to "malformed JSON request body" in the bind
contract. -/
def parseVal : Nat → List Char → Option (Json × List Char)
  | 0, _ => none
  | Nat.succ fuel, input =>
    match skipWs input with
    | [] => none
    | c :: cs =>
      if c == 'n' then
        match cs with
        | 'u' :: 'l' :: 'l' :: rest => some (Json.null, rest)
        | _ => none
      else if c == 't' then
        match cs with
        | 'r' :: 'u' :: 'e' :: rest => some (Json.bool true, rest)
        | _ => none
      else if c == 'f' then
        match cs with
        | 'a' :: 'l' :: 's' :: 'e' :: rest => some (Json.bool false, rest)
        | _ => none
      else if c == '"' then
        match takeStr cs with
        | some (s, rest) => some (Json.str s, rest)
        | none => none
      else if c == '-' then
        match takeDigits cs with
        | ([], _) => none
        | (ds, rest) => some (Json.num (-(digitsToNat ds : Int)), rest)
      else if c.isDigit then
        let p := takeDigits (c :: cs)
        some (Json.num (digitsToNat p.1), p.2)
      else if c == '[' then parseArr fuel cs
      else if c == '\x7b' then parseObjFields fuel cs
      else none

/-- Parses the remainder of a JSON array (opening bracket already consumed). -/
def parseArr : Nat → List Char → Option (Json × List Char)
  | 0, _ => none
  | Nat.succ fuel, input =>
    match skipWs input with
    | ']' :: rest => some (Json.arr [], rest)
    | inp =>
      match parseVal fuel inp with
      | none => none
      | some (v, rest) =>
        match parseArrTail fuel rest with
        | some (vs, rest2) => some (Json.arr (v :: vs), rest2)
        | none => none

/-- Parses the tail of a JSON array after its first element. -/
def parseArrTail : Nat → List Char → Option (List Json × List Char)
  | 0, _ => none
  | Nat.succ fuel, input =>
    match skipWs input with
    | ']' :: rest => some ([], rest)
    | ',' :: rest =>
      match parseVal fuel rest with
      | none => none
      | some (v, rest2) =>
        match parseArrTail fuel rest2 with
        | some (vs, rest3) => some (v :: vs, rest3)
        | none => none
    | _ => none

/-- Parses the remainder of a JSON object (opening brace already consumed). -/
def parseObjFields : Nat → List Char → Option (Json × List Char)
  | 0, _ => none
  | Nat.succ fuel, input =>
    match skipWs input with
    | '\x7d' :: rest => some (Json.obj [], rest)
    | inp =>
      match parseField fuel inp with
      | none => none
      | some (f, rest) =>
        match parseObjTail fuel rest with
        | some (fs, rest2) => some (Json.obj (f :: fs), rest2)
        | none => none

/-- Parses the tail of a JSON object after its first field. -/
def parseObjTail : Nat → List Char → Option (List (String × Json) × List Char)
  | 0, _ => none
  | Nat.succ fuel, input =>
    match skipWs input with
    | '\x7d' :: rest => some ([], rest)
    | ',' :: rest =>
      match parseField fuel rest with
      | none => none
      | some (f, rest2) =>
        match parseObjTail fuel rest2 with
        | some (fs, rest3) => some (f :: fs, rest3)
        | none => none
    | _ => none

/-- Parses one `"key": value` field of a JSON object. -/
def parseField : Nat → List Char → Option ((String × Json) × List Char)
  | 0, _ => none
  | Nat.succ fuel, input =>
    match skipWs input with
    | '"' :: cs =>
      match takeStr cs with
      | none => none
      | some (k, rest) =>
        match skipWs rest with
        | ':' :: rest2 =>
          match parseVal fuel rest2 with
          | none => none
          | some (v, rest3) => some ((k, v), rest3)
        | _ => none
    | _ => none

end

/-- Parses a whole request body as a single JSON value; `none` means the body
is malformed. -/
def parseJson (s : String) : Option Json :=
  match parseVal (2 * s.length + 2) s.data with
  | some (v, rest) => if skipWs rest == [] then some v else none
  | none => none

/-- Modelled from the spec: `Context.BindJSON` (`src/module.go` line 59) as a
conforming implementation must behave — it binds the request body as JSON into
the caller-supplied target, failing with `BindError` and leaving the target
unmodified when the body is malformed. The pair returned is (call result,
target after the call). -/
def BindJSON (body : String) (target : Json) : Except CtxError Unit × Json :=
  match parseJson body with
  | none => (Except.error CtxError.bindError, target)
  | some v => (Except.ok (), v)

/-- HTTP methods carried by the registration operations of `Router`
(`src/module.go` lines 85-97). -/
inductive Method where
  | GET
  | POST
  | PUT
  | DELETE
  | PATCH
deriving DecidableEq

/-- Modelled from the spec: one registered route of a conforming `Router`
implementation — method, full path, and an identifier for the handler. -/
structure Route where
  method : Method
  path : String
  handler : Nat
deriving DecidableEq

/-- Modelled from the spec: the route table a conforming `Router`
implementation accumulates; registrations append to it. -/
abbrev RouterState : Type := List Route

/-- Modelled from the spec: a `Router` handle — either the parent router or a
group — identified by the path scope all its registrations are placed under.
The parent router has the empty scope. -/
structure RouterHandle where
  basePath : String
deriving DecidableEq

/-- The parent router handle: routes registered on it carry no extra scope. -/
def rootRouter : RouterHandle := ⟨""⟩

/-- Modelled from the spec: `Router.Group` (`src/module.go` line 100) — it
returns a new router scoped under the given path, relative to the receiver's
own scope. -/
def Group (r : RouterHandle) (p : String) : RouterHandle :=
  ⟨r.basePath ++ p⟩

/-- Modelled from the spec: `Router.GET` (`src/module.go` line 85) — it
registers the handler for GET requests at the receiver's scope followed by
the given path. -/
def GET (r : RouterHandle) (path : String) (handlerId : Nat)
    (st : RouterState) : RouterState :=
  st ++ [⟨Method.GET, r.basePath ++ path, handlerId⟩]

/-- Modelled from the spec: dispatch on the parent router — the first route
whose method and full path match wins. -/
def dispatch (st : RouterState) (m : Method) (path : String) : Option Nat :=
  (st.find? fun r => r.method == m && r.path == path).map Route.handler

/-- C1: every status-code constant in the package equals the IANA-assigned
integer for its symbolic name; in particular `StatusNotFound = 404`,
`StatusTooManyRequests = 429`, `StatusOK = 200`, `StatusTeapot = 418` and
`StatusNetworkAuthenticationRequired = 511`. -/
theorem status_constants_match_iana :
    StatusNotFound = 404 ∧ StatusTooManyRequests = 429 ∧ StatusOK = 200 ∧
    StatusTeapot = 418 ∧ StatusNetworkAuthenticationRequired = 511 ∧
    (statusTable.all fun p => ianaAssignedValue p.1 == some p.2) = true := by
  refine ⟨rfl, rfl, rfl, rfl, rfl, ?_⟩
  rfl

/-- C2 counterexample: the IANA registry assigns code 306 (listed as
"(Unused)" with reference RFC 9110 section 15.4.7), yet no constant in the
status-code table has the value 306, refuting the claim that every
IANA-registered code has exactly one constant. -/
theorem iana_code_306_has_no_constant :
    306 ∈ ianaRegistryCodes ∧
    (statusTable.countP fun p => p.2 == 306) = 0 := by
  decide

/-- C2 as amended: for every code in the IANA HTTP status-code registry other
than 306 (registered but unused), the table contains exactly one constant
whose value is that code. -/
theorem status_constants_cover_iana_except_306 :
    (ianaRegistryCodes.all fun c =>
      c == 306 || (statusTable.countP fun p => p.2 == c) == 1) = true := by
  decide

/-- C3: `Config` is a record with exactly two fields — an integer port and a
string host (any value is determined by those two projections) — and the
external configuration option names recognized for them are exactly `port`
and `host`. -/
theorem config_two_fields_port_host :
    (∀ c : Config, c = ⟨c.Port, c.Host⟩) ∧
    configMapstructureTags = [("Port", "port"), ("Host", "host")] :=
  ⟨fun _ => rfl, rfl⟩

/-- C4: the `Server` interface declares exactly three operations — `Start`
taking a context and returning an error, `Stop` taking a context and
returning an error, and `Addr` taking nothing and returning a string. -/
theorem server_declares_start_stop_addr :
    serverMethods.length = 3 ∧
    serverMethods =
      [⟨"Start", [GoType.context], [GoType.error]⟩,
       ⟨"Stop", [GoType.context], [GoType.error]⟩,
       ⟨"Addr", [], [GoType.string]⟩] :=
  ⟨rfl, rfl⟩

/-- C5: the `Router` interface declares exactly one registration operation for
each of GET, POST, PUT, DELETE and PATCH — each taking a path string and a
`HandlerFunc` — plus `Group` taking a path string and returning a `Router`;
and `HandlerFunc` maps a `Context` to an error. -/
theorem router_declares_five_methods_and_group :
    routerMethods =
      [⟨"GET", [GoType.string, GoType.handlerFunc], []⟩,
       ⟨"POST", [GoType.string, GoType.handlerFunc], []⟩,
       ⟨"PUT", [GoType.string, GoType.handlerFunc], []⟩,
       ⟨"DELETE", [GoType.string, GoType.handlerFunc], []⟩,
       ⟨"PATCH", [GoType.string, GoType.handlerFunc], []⟩,
       ⟨"Group", [GoType.string], [GoType.router]⟩] ∧
    handlerFuncSig = ([GoType.context], [GoType.error]) :=
  ⟨rfl, rfl⟩

/-- C6: on an uncommitted `Context` the first JSON write succeeds and commits
the given status code and body; a second JSON write — or a `String` write —
on the same `Context` fails with `WriteError` and leaves the status code and
body sent by the first call unaltered. -/
theorem json_second_write_fails (st : RespState) (c1 c2 c3 : Nat)
    (p1 p2 s3 : String) (h : st.committed = false) :
    (JSON c1 p1 st).1 = Except.ok () ∧
    (JSON c1 p1 st).2.status = c1 ∧
    (JSON c1 p1 st).2.body = p1 ∧
    (JSON c2 p2 (JSON c1 p1 st).2).1 = Except.error CtxError.writeError ∧
    (JSON c2 p2 (JSON c1 p1 st).2).2 = (JSON c1 p1 st).2 ∧
    (StringResp c3 s3 (JSON c1 p1 st).2).1 = Except.error CtxError.writeError ∧
    (StringResp c3 s3 (JSON c1 p1 st).2).2 = (JSON c1 p1 st).2 := by
  simp [JSON, StringResp, h]

/-- C6 witness: the double-write property instantiated on a fresh response
state with two concrete writes. -/
theorem json_second_write_fails_witness :
    (RespState.mk false 0 "" "").committed = false ∧
    ((JSON 200 "a" (RespState.mk false 0 "" "")).1 = Except.ok () ∧
     (JSON 200 "a" (RespState.mk false 0 "" "")).2.status = 200 ∧
     (JSON 200 "a" (RespState.mk false 0 "" "")).2.body = "a" ∧
     (JSON 404 "b" (JSON 200 "a" (RespState.mk false 0 "" "")).2).1 =
       Except.error CtxError.writeError ∧
     (JSON 404 "b" (JSON 200 "a" (RespState.mk false 0 "" "")).2).2 =
       (JSON 200 "a" (RespState.mk false 0 "" "")).2 ∧
     (StringResp 500 "c" (JSON 200 "a" (RespState.mk false 0 "" "")).2).1 =
       Except.error CtxError.writeError ∧
     (StringResp 500 "c" (JSON 200 "a" (RespState.mk false 0 "" "")).2).2 =
       (JSON 200 "a" (RespState.mk false 0 "" "")).2) :=
  ⟨rfl, json_second_write_fails (RespState.mk false 0 "" "") 200 404 500
    "a" "b" "c" rfl⟩

/-- C7: binding a malformed JSON request body via `BindJSON` fails with
`BindError` and returns the caller-supplied target exactly as it was (no
partial writes). -/
theorem bind_malformed_fails (body : String) (target : Json)
    (h : parseJson body = none) :
    BindJSON body target = (Except.error CtxError.bindError, target) := by
  simp [BindJSON, h]

/-- C7 witness: the truncated body `[` is malformed, and binding it leaves the
target untouched while failing with `BindError`. -/
theorem bind_malformed_fails_witness :
    parseJson "[" = none ∧
    BindJSON "[" Json.null = (Except.error CtxError.bindError, Json.null) :=
  ⟨rfl, bind_malformed_fails "[" Json.null rfl⟩

/-- C8: a route registered on the child router returned by `Group` carries the
group's path: registering GET `path` on `Group rootRouter p` records the full
path `p ++ path`, and the handler is reachable at `p ++ path` on the parent
router's dispatch. -/
theorem group_route_reachable_under_scope (p path : String) (hid : Nat) :
    GET (Group rootRouter p) path hid [] =
      [⟨Method.GET, p ++ path, hid⟩] ∧
    dispatch (GET (Group rootRouter p) path hid []) Method.GET (p ++ path) =
      some hid := by
  have h1 : GET (Group rootRouter p) path hid [] =
      [⟨Method.GET, p ++ path, hid⟩] := by
    simp [GET, Group, rootRouter, String.empty_append]
  refine ⟨h1, ?_⟩
  rw [h1]
  simp [dispatch, List.find?]

/-- C10: the values of the status-code constants are pairwise distinct, and
every value lies between 100 and 511 inclusive. -/
theorem status_values_distinct_and_in_range :
    (statusTable.map Prod.snd).Nodup ∧
    (statusTable.all fun p => 100 ≤ p.2 && p.2 ≤ 511) = true := by
  decide

end ThingsKitHttp
